import Mathlib

/-!
Verification of the antlion sandbox library (src/lib.rs).

The library provisions a throwaway Cargo project (`Sandbox::new`), installs
dependencies into it (`Sandbox::deps`) and evaluates one Rust expression in
it (`Sandbox::eval`) by synthesizing a wrapper program, running it via
`cargo run`, and reading back the `output` file it writes.

This file shallowly embeds those three functions and the synthesized
wrapper program. External effects (subprocess spawning, the filesystem, the
`FromStr` parser of the requested type) are parameters supplied by an
environment; the embedded functions reproduce exactly what the Rust code
does with the results of those effects.
-/

namespace Antlion

/-- Error kinds of `std::io::Error` as the code observes them. The Rust
standard library documents that its own operations never produce
`ErrorKind::Other`: that kind is reserved for user code, and `eval` uses it
(via `.or(Err(io::ErrorKind::Other))`) to report a parse failure. The
constructors other than `other` stand for the kinds std itself produces
(`notFound` is what reading a missing file yields; `uncategorized` stands
for every remaining std kind). -/
inductive ErrorKind where
  | notFound
  | permissionDenied
  | invalidData
  | uncategorized
  | other
  deriving DecidableEq, Repr

/-- Result of one `Command::output()` call as the code observes it.
`spawnErr k` models `Err(k)`: the process could not be run at all, which is
the only case the code's `?` operator propagates. `exited ok` models
`Ok(output)` with `output.status.success() = ok`; the code never inspects
the status, stdout or stderr of any command it runs. -/
inductive CmdResult where
  | spawnErr (k : ErrorKind)
  | exited (ok : Bool)
  deriving DecidableEq, Repr

/-- Embedding of `Sandbox::new` (src/lib.rs lines 43-59): it runs
`mkdir -p <root>` and then `cargo new sandbox`, each through
`Command::output()?`, and returns `Ok(Sandbox { .. })`. The `?` propagates
only a spawn failure; the exit status of either command is never looked at,
so a command that ran and reported failure through a non-zero status does
not stop `new`. -/
def sandboxNew (mkdirRes cargoNewRes : CmdResult) : Except ErrorKind Unit :=
  match mkdirRes with
  | .spawnErr k => .error k
  | .exited _ =>
    match cargoNewRes with
    | .spawnErr k => .error k
    | .exited _ => .ok ()

/-- Provisioning succeeded: the directory-creation command and the
scaffolding command both ran and exited successfully. -/
def provisionOk (mkdirRes cargoNewRes : CmdResult) : Prop :=
  mkdirRes = .exited true ∧ cargoNewRes = .exited true

/-- The workspace files the library touches: the manifest (the dependencies
`cargo add` has recorded, in order), the entry-point source file
`src/main.rs`, and the transient `output` file. `none` means the file is
absent. -/
structure FsState where
  manifest : List String
  mainRs : Option String
  output : Option String
  deriving DecidableEq, Repr

/-- What one `Sandbox::deps` call did: its returned `io::Result` (the value
`Ok(self)` carries no data relevant here), the workspace state it left
behind, and the dependency names for which a `cargo add` invocation was
actually attempted, in order. -/
structure DepsOutcome where
  result : Except ErrorKind Unit
  state : FsState
  attempted : List String
  deriving Repr

/-- Embedding of `Sandbox::deps` (src/lib.rs lines 64-74): for each name in
order it invokes `cargo add <name>` via `Command::output()?`. Only a spawn
failure is propagated (stopping the loop immediately); the exit status is
never inspected, so an add that ran and failed leaves the loop running. A
run that exits successfully appends the name to the manifest (the external
tool's documented effect); a failed run leaves the manifest unchanged. -/
def depsRun (env : String → CmdResult) : List String → FsState → DepsOutcome
  | [], st => ⟨.ok (), st, []⟩
  | d :: ds, st =>
    match env d with
    | .spawnErr k => ⟨.error k, st, [d]⟩
    | .exited ok =>
      let st' := if ok then { st with manifest := st.manifest ++ [d] } else st
      let rest := depsRun env ds st'
      ⟨rest.result, rest.state, d :: rest.attempted⟩

/-- A workspace as `Sandbox::new` leaves it: empty manifest, the `cargo new`
placeholder entry point, no output file. -/
def freshState : FsState :=
  ⟨[], some "fn main () \x7b println! (\"Hello, world!\") ; \x7d", none⟩

/-- The program text `Sandbox::eval` synthesizes (the `quote!` block at
src/lib.rs lines 82-90), as `TokenStream::to_string` prints it (one space
between tokens), with the caller's expression spliced in where `#expr`
stands. -/
def wrapperText (expr : String) : String :=
  "use std :: io :: prelude :: * ; " ++
  "fn main () -> std :: io :: Result < () > \x7b " ++
  "let mut file = std :: fs :: File :: create (\"output\") ? ; " ++
  "let output = \x7b " ++ expr ++ " \x7d . to_string () ; " ++
  "file . write_all (output . as_bytes ()) ? ; " ++
  "Ok (()) \x7d"

/-- How the spliced expression's evaluation inside the wrapper terminates:
it produces a value `v` (of the caller's type `T`), or it fails fatally
(a panic). -/
inductive ExprOutcome (T : Type) where
  | val (v : T)
  | fatal

/-- How the wrapper process terminates: `main` returned `Ok(())` (exit
status 0), `main` returned `Err(e)` (non-zero exit status reporting the I/O
error), or the process was aborted by a panic (abnormal termination). -/
inductive ProcExit where
  | success
  | ioFailure
  | abnormal
  deriving DecidableEq, Repr

/-- Semantics of the synthesized wrapper program, run against a workspace
whose `output` file currently holds `file`. Following the source text of
the `quote!` block: `File::create("output")` truncates/creates the file
first (a failure there makes `main` return the error); only then is the
expression evaluated, so a fatal expression failure aborts the process
leaving the just-truncated empty file behind; `to_string` converts the
value via `ts`; `write_all` writes that text (a failed write leaves some
prefix `leftover` of it and makes `main` return the error); otherwise
`main` returns `Ok(())`. -/
def wrapperRun {T : Type} (ts : T → String) (createOk writeOk : Bool)
    (leftover : String) (outcome : ExprOutcome T) (file : Option String) :
    ProcExit × Option String :=
  if createOk then
    match outcome with
    | .fatal => (.abnormal, some "")
    | .val v => if writeOk then (.success, some (ts v)) else (.ioFailure, some leftover)
  else (.ioFailure, file)

/-- The environment one `Sandbox::eval` call runs against: the outcome of
`fs::write` on src/main.rs (`some k`: it fails with kind `k`), of spawning
`cargo run`, the effect the compiled-and-run program had on the `output`
file (`some s`: the file now holds `s`; `none`: nothing was written, as
when the build failed), the outcome of `fs::read_to_string` on an existing
output file (`some k`: it fails with kind `k`, e.g. `invalidData` on
non-UTF-8 bytes), the outcome of `fs::remove_file`, and the `FromStr`
implementation of the caller's requested type `T`. -/
structure EvalEnv (T : Type) where
  writeMain : Option ErrorKind
  runSpawn : CmdResult
  runEffect : Option String
  readErr : Option ErrorKind
  removeErr : Option ErrorKind
  parse : String → Option T

/-- The `output` file after the `cargo run` step: whatever the program
wrote, if anything, else the file as it was before the run. -/
def afterRun {T : Type} (env : EvalEnv T) (st : FsState) : Option String :=
  match env.runEffect with
  | some s => some s
  | none => st.output

/-- Embedding of `Sandbox::eval` (src/lib.rs lines 79-101), in the source's
strict order: write the wrapper text to src/main.rs (`fs::write(..)?`);
spawn `cargo run` (`Command::output()?`, the exit status never inspected);
read the output file (`fs::read_to_string(..)?`, which fails with kind
`notFound` when the file is absent); parse the text
(`.parse().or(Err(io::ErrorKind::Other))?`); delete the output file
(`fs::remove_file(..)?`); return the parsed value. Every `?` returns the
error immediately, leaving the workspace in whatever state had been reached
by then. -/
def evalRun {T : Type} (env : EvalEnv T) (expr : String) (st : FsState) :
    Except ErrorKind T × FsState :=
  match env.writeMain with
  | some k => (.error k, st)
  | none =>
    let st1 : FsState := { st with mainRs := some (wrapperText expr) }
    match env.runSpawn with
    | .spawnErr k => (.error k, st1)
    | .exited _ =>
      let st2 : FsState := { st1 with output := afterRun env st }
      match st2.output with
      | none => (.error .notFound, st2)
      | some txt =>
        match env.readErr with
        | some k => (.error k, st2)
        | none =>
          match env.parse txt with
          | none => (.error .other, st2)
          | some v =>
            match env.removeErr with
            | some k => (.error k, st2)
            | none => (.ok v, { st2 with output := none })

/-- Observable actions of one library call against a sandbox, in program
order: mutex operations, subprocess invocations, and accesses to the
workspace files. -/
inductive Event where
  | lockAcquire
  | lockRelease
  | cmd (line : String)
  | writeMainRs
  | readOutput
  | removeOutput
  deriving DecidableEq, Repr

/-- Action trace of `Sandbox::deps` (src/lib.rs lines 64-74). In Rust,
`let _ = lock.lock().unwrap();` does not bind the `MutexGuard`: `_` is the
wildcard pattern, so the guard is a temporary that is dropped — unlocking
the mutex — at the end of that very statement, before the `cargo add` loop
starts. (This is the pattern clippy's deny-by-default `let_underscore_lock`
lint rejects.) -/
def depsEvents (deps : List String) : List Event :=
  [.lockAcquire, .lockRelease] ++ deps.map (fun d => .cmd ("cargo add " ++ d))

/-- Action trace of a fully successful `Sandbox::eval` (src/lib.rs lines
79-101); as in `depsEvents`, the `let _ = lock.lock().unwrap();` statement
drops the guard at once, so every following action runs with the mutex
unlocked. -/
def evalEvents : List Event :=
  [.lockAcquire, .lockRelease, .writeMainRs, .cmd "cargo run", .readOutput,
    .removeOutput]

/-- The locking discipline the specification claims: the operation's first
action acquires the lock, its final action releases it, and no action in
between touches the lock — so every subprocess invocation and file access
happens while the lock is held. -/
def heldThroughout (tr : List Event) : Bool :=
  match tr with
  | .lockAcquire :: rest =>
    rest ≠ [] && rest.getLast? == some .lockRelease &&
      rest.dropLast.all (fun e => e != .lockAcquire && e != .lockRelease)
  | _ => false

/-- The call sequences the public API admits on one sandbox value, read off
the Rust signatures: `deps` takes `self` by value and returns
`io::Result<Self>`, so (at best, when it succeeds) the session continues
with the returned sandbox; `eval` takes `self` by value and returns
`io::Result<T>` — no sandbox comes back, so `eval` can only be a session's
final call; `drop`: the value goes out of scope with no further call. -/
inductive Session where
  | drop
  | deps (ds : List String) (rest : Session)
  | eval (expr : String)

/-- One public API call on a sandbox value. -/
inductive ApiCall where
  | deps (ds : List String)
  | eval (expr : String)
  deriving DecidableEq, Repr

/-- The API calls a session performs, in order. -/
def Session.calls : Session → List ApiCall
  | .drop => []
  | .deps ds rest => ApiCall.deps ds :: rest.calls
  | .eval e => [ApiCall.eval e]

/-- Whether an API call is an `eval`. -/
def ApiCall.isEval : ApiCall → Bool
  | .eval _ => true
  | _ => false

/-- C1: the claim fails on the code. The `let _ = lock.lock().unwrap();`
statement in `deps` and `eval` drops the `MutexGuard` immediately (the `_`
wildcard pattern binds nothing, so the guard is a temporary destroyed at
the end of the statement), releasing the mutex before any build-tool
subprocess runs or any workspace file is touched: the trace of
`deps(["serde"])` releases the lock before the `cargo add` invocation, and
neither the `deps` trace nor the `eval` trace keeps the lock held for the
whole operation. -/
theorem c1_lock_dropped_before_work :
    depsEvents ["serde"] =
      [Event.lockAcquire, Event.lockRelease, Event.cmd "cargo add serde"] ∧
    heldThroughout (depsEvents ["serde"]) = false ∧
    heldThroughout evalEvents = false :=
  ⟨rfl, rfl, rfl⟩

/-- C3 counterexample: `cargo new` runs but exits unsuccessfully (e.g. the
scaffold could not be written), yet `Sandbox::new` returns `Ok`: a Sandbox
is returned although provisioning did not succeed, because exit statuses
are never checked. -/
theorem c3_counterexample :
    sandboxNew (CmdResult.exited true) (CmdResult.exited false) = .ok () ∧
    ¬ provisionOk (CmdResult.exited true) (CmdResult.exited false) :=
  ⟨rfl, by simp [provisionOk]⟩

/-- C3 (amended): `Sandbox::new` returns an error exactly when spawning the
`mkdir` or the `cargo new` subprocess fails — the first spawn error is
returned, and then no Sandbox is produced — and it returns a Sandbox
whenever both commands could be spawned, whatever their exit statuses: a
filesystem or scaffolding failure that a command reports through a
non-zero exit status goes undetected. -/
theorem c3_new_reports_only_spawn_failures (m c : CmdResult) :
    (sandboxNew m c = .ok () ↔ (∃ s, m = .exited s) ∧ ∃ s, c = .exited s) ∧
    ∀ k, sandboxNew m c = .error k ↔
      m = .spawnErr k ∨ (∃ s, m = .exited s) ∧ c = .spawnErr k := by
  cases m <;> cases c <;> simp [sandboxNew]

/-- An add-command behavior where `cargo add B` runs and exits
unsuccessfully (the dependency could not be added) while every other add
succeeds. -/
def addEnvExitFail : String → CmdResult := fun d =>
  if d = "B" then .exited false else .exited true

/-- C2 counterexample: for the list `["A", "B", "C"]` where adding `B`
fails — `cargo add B` runs and reports failure through its exit status, so
`B` does not reach the manifest — `deps` does not return an error: it
returns `Ok`, and `C` is still attempted, because the exit status of
`cargo add` is never inspected. -/
theorem c2_counterexample :
    addEnvExitFail "B" ≠ CmdResult.exited true ∧
    (depsRun addEnvExitFail ["A", "B", "C"] freshState).state.manifest = ["A", "C"] ∧
    (depsRun addEnvExitFail ["A", "B", "C"] freshState).result = .ok () ∧
    (depsRun addEnvExitFail ["A", "B", "C"] freshState).attempted = ["A", "B", "C"] :=
  ⟨by decide, rfl, rfl, rfl⟩

/-- C2 (amended): the only dependency-add failure `deps` detects is a spawn
failure of the add command. If every name before `d` adds successfully and
invoking `cargo add d` itself fails with I/O error `k`, then `deps` returns
`Err(k)` immediately: the earlier names are all in the manifest, `d` is the
last invocation attempted, and the names after `d` are never attempted. (A
`cargo add` that runs but exits unsuccessfully neither stops the loop nor
surfaces an error — see the counterexample.) -/
theorem c2_spawn_failure_stops_deps (env : String → CmdResult)
    (pre post : List String) (d : String) (k : ErrorKind) (st : FsState)
    (hpre : ∀ x ∈ pre, env x = .exited true)
    (hd : env d = .spawnErr k) :
    depsRun env (pre ++ d :: post) st =
      ⟨.error k, { st with manifest := st.manifest ++ pre }, pre ++ [d]⟩ := by
  induction pre generalizing st with
  | nil =>
    obtain ⟨m, a, o⟩ := st
    simp [depsRun, hd]
  | cons x xs ih =>
    have hx : env x = CmdResult.exited true := hpre x (List.mem_cons_self x xs)
    obtain ⟨m, a, o⟩ := st
    simp only [List.cons_append, depsRun, hx, if_true, List.append_eq]
    rw [ih _ (fun y hy => hpre y (List.mem_cons_of_mem x hy))]
    simp

/-- An add-command behavior where invoking `cargo add B` fails to spawn
(an I/O error from `Command::output` itself) while every other add runs and
succeeds. -/
def addEnvSpawnFail : String → CmdResult := fun d =>
  if d = "B" then .spawnErr .notFound else .exited true

/-- Witness for the amended C2, at the list `["A", "B", "C"]` with the
invocation of `cargo add B` failing to spawn: `deps` stops with that error,
`A` is installed, `C` never attempted. -/
theorem c2_amended_witness :
    depsRun addEnvSpawnFail ["A", "B", "C"] freshState =
      ⟨.error .notFound,
        { freshState with manifest := freshState.manifest ++ ["A"] },
        ["A", "B"]⟩ :=
  c2_spawn_failure_stops_deps addEnvSpawnFail ["A"] ["C"] "B" ErrorKind.notFound
    freshState (by decide) (by decide)

/-- The decimal value of a digit character, if it is one. Part of the model
of the out-of-scope serialization contract (Rust's `FromStr`/`ToString` for
an unsigned integer), written by structural recursion so it evaluates. -/
def digitVal? (c : Char) : Option Nat :=
  if 48 ≤ c.toNat ∧ c.toNat ≤ 57 then some (c.toNat - 48) else none

/-- Accumulating decimal parse of a digit list; fails on any non-digit. -/
def natFromDigits : List Char → Nat → Option Nat
  | [], acc => some acc
  | c :: cs, acc =>
    match digitVal? c with
    | some d => natFromDigits cs (acc * 10 + d)
    | none => none

/-- The `FromStr` contract of an unsigned integer: nonempty all-digit text
parses to its decimal value, anything else fails. -/
def parseNat (s : String) : Option Nat :=
  match s.data with
  | [] => none
  | c :: cs => natFromDigits (c :: cs) 0

/-- Decimal digits of `n` (most significant first), with explicit fuel so
the recursion is structural. -/
def natToDigits : Nat → Nat → List Char
  | 0, _ => []
  | fuel + 1, n =>
    if n = 0 then [] else natToDigits fuel (n / 10) ++ [Char.ofNat (48 + n % 10)]

/-- The `ToString` contract of an unsigned integer: its canonical decimal
text. -/
def natRepr (n : Nat) : String :=
  if n = 0 then "0" else String.mk (natToDigits (n + 1) n)

/-- An eval environment in which the synthesized program terminated
abnormally without producing the output file (e.g. it failed to compile):
`cargo run` spawns fine but exits unsuccessfully, nothing is written to the
output file; the library's own fs operations would succeed; the requested
type is Nat. -/
def envNoOutput : EvalEnv Nat :=
  ⟨none, .exited false, none, none, none, parseNat⟩

/-- An eval environment on the happy path for the expression 2 + 2: the
compiled wrapper ran and wrote "4" to the output file, every fs operation
succeeds, the requested type is Nat. -/
def envHappy : EvalEnv Nat :=
  ⟨none, .exited true, some "4", none, none, parseNat⟩

/-- An eval environment in which the program wrote text that does not parse
as the requested type Nat. -/
def envBadText : EvalEnv Nat :=
  ⟨none, .exited true, some "not a number", none, none, parseNat⟩

/-- C4: when the synthesized program terminates abnormally and the output
file is not produced (the run wrote nothing and no output file pre-existed),
`eval` returns the read failure on the missing file — an error, never a
default value; and the result of `eval` does not depend on the exit status
of `cargo run` at all: once the process ran, success is inferred solely
from the output file. -/
theorem c4_abnormal_termination_surfaces (T : Type) (env : EvalEnv T)
    (expr : String) (st : FsState) (s : Bool)
    (hw : env.writeMain = none) (hs : env.runSpawn = .exited s)
    (heff : env.runEffect = none) (hout : st.output = none) :
    (evalRun env expr st).1 = .error .notFound ∧
    (∀ s' : Bool,
      evalRun { env with runSpawn := .exited s' } expr st = evalRun env expr st) := by
  constructor
  · simp [evalRun, afterRun, hw, hs, heff, hout]
  · intro s'
    simp [evalRun, afterRun, hw, hs, heff, hout]

/-- Witness for C4: a run that exits unsuccessfully without writing the
output file yields the missing-file error, independently of the exit
status. -/
theorem c4_witness :
    (evalRun envNoOutput "1 / 0" freshState).1 = .error .notFound ∧
    (∀ s' : Bool,
      evalRun { envNoOutput with runSpawn := .exited s' } "1 / 0" freshState =
        evalRun envNoOutput "1 / 0" freshState) :=
  c4_abnormal_termination_surfaces Nat envNoOutput "1 / 0" freshState false
    rfl rfl rfl rfl

/-- C5: round-trip. If the library's fs operations succeed and the
compiled wrapper runs according to its contract — it writes the canonical
text `ts v` of the value `v` the expression evaluates to — and the
requested type parses that canonical text back to the same value, then
`eval` returns `Ok v`: the very value of evaluating the expression directly
in-process. -/
theorem c5_round_trip (T : Type) (ts : T → String) (env : EvalEnv T)
    (expr : String) (st : FsState) (v : T)
    (hw : env.writeMain = none) (hs : env.runSpawn = .exited true)
    (heff : env.runEffect = (wrapperRun ts true true "" (ExprOutcome.val v) st.output).2)
    (hre : env.readErr = none) (hrm : env.removeErr = none)
    (hparse : env.parse (ts v) = some v) :
    (evalRun env expr st).1 = .ok v := by
  simp [evalRun, afterRun, wrapperRun, hw, hs, heff, hre, hrm, hparse]

/-- Witness for C5: evaluating the expression 2 + 2 at type Nat returns
exactly `Ok (2 + 2)`, i.e. `Ok 4`. -/
theorem c5_witness :
    (evalRun envHappy "2 + 2" freshState).1 = .ok (2 + 2) :=
  c5_round_trip Nat natRepr envHappy "2 + 2" freshState (2 + 2)
    rfl rfl (by decide) rfl rfl (by decide)

/-- C6: after a successful `eval`, the output file does not exist any
longer (its removal is the last step before returning), and src/main.rs
exists and holds exactly the wrapper text synthesized for this call's
expression. -/
theorem c6_cleanup (T : Type) (env : EvalEnv T) (expr : String) (st : FsState)
    (v : T) (h : (evalRun env expr st).1 = .ok v) :
    (evalRun env expr st).2.output = none ∧
    (evalRun env expr st).2.mainRs = some (wrapperText expr) := by
  cases hw : env.writeMain with
  | some k => simp [evalRun, hw] at h
  | none =>
    cases hs : env.runSpawn with
    | spawnErr k => simp [evalRun, hw, hs] at h
    | exited ok =>
      cases ho : afterRun env st with
      | none => simp [evalRun, hw, hs, ho] at h
      | some txt =>
        cases hre : env.readErr with
        | some k => simp [evalRun, hw, hs, ho, hre] at h
        | none =>
          cases hp : env.parse txt with
          | none => simp [evalRun, hw, hs, ho, hre, hp] at h
          | some w =>
            cases hrm : env.removeErr with
            | some k => simp [evalRun, hw, hs, ho, hre, hp, hrm] at h
            | none => simp [evalRun, hw, hs, ho, hre, hp, hrm]

/-- Witness for C6: the happy-path evaluation of 2 + 2 leaves no output
file and leaves the synthesized wrapper in src/main.rs. -/
theorem c6_witness :
    (evalRun envHappy "2 + 2" freshState).2.output = none ∧
    (evalRun envHappy "2 + 2" freshState).2.mainRs = some (wrapperText "2 + 2") :=
  c6_cleanup Nat envHappy "2 + 2" freshState 4 rfl

/-- All the I/O failures an eval environment may inject carry error kinds
the Rust standard library produces: never `ErrorKind::Other`, which std
documents as reserved for user code. -/
def EvalEnv.stdKinds {T : Type} (env : EvalEnv T) : Prop :=
  env.writeMain ≠ some .other ∧ env.runSpawn ≠ .spawnErr .other ∧
  env.readErr ≠ some .other ∧ env.removeErr ≠ some .other

/-- C7: under standard-library error kinds, `eval` reports
`ErrorKind::Other` exactly on the parse-failure path — the output file was
read successfully but its text did not convert to the requested type — so
a parse failure is distinguishable by its kind from every I/O failure (a
missing output file yields `NotFound`; any other fs or spawn failure
yields that failure's std kind, never `Other`). -/
theorem c7_parse_failure_kind_distinct (T : Type) (env : EvalEnv T)
    (expr : String) (st : FsState) (h : env.stdKinds) :
    ((evalRun env expr st).1 = .error .other ↔
      env.writeMain = none ∧ (∃ s, env.runSpawn = .exited s) ∧
        ∃ txt, afterRun env st = some txt ∧ env.readErr = none ∧
          env.parse txt = none) := by
  obtain ⟨h1, h2, h3, h4⟩ := h
  cases hw : env.writeMain with
  | some k =>
    have hk : k ≠ ErrorKind.other := by rintro rfl; exact h1 hw
    simp [evalRun, hw, hk]
  | none =>
    cases hs : env.runSpawn with
    | spawnErr k =>
      have hk : k ≠ ErrorKind.other := by rintro rfl; exact h2 hs
      simp [evalRun, hw, hs, hk]
    | exited ok =>
      cases ho : afterRun env st with
      | none => simp [evalRun, hw, hs, ho]
      | some txt =>
        cases hre : env.readErr with
        | some k =>
          have hk : k ≠ ErrorKind.other := by rintro rfl; exact h3 hre
          simp [evalRun, hw, hs, ho, hre, hk]
        | none =>
          cases hp : env.parse txt with
          | none => simp [evalRun, hw, hs, ho, hre, hp]
          | some w =>
            cases hrm : env.removeErr with
            | some k =>
              have hk : k ≠ ErrorKind.other := by rintro rfl; exact h4 hrm
              simp [evalRun, hw, hs, ho, hre, hp, hrm, hk]
            | none => simp [evalRun, hw, hs, ho, hre, hp, hrm]

/-- Witness for C7: with output text that is not a number and a Nat target,
`eval` reports kind `Other`, and the characterization holds at this
concrete input. -/
theorem c7_witness :
    ((evalRun envBadText "2 + 2" freshState).1 = .error .other ↔
      envBadText.writeMain = none ∧ (∃ s, envBadText.runSpawn = .exited s) ∧
        ∃ txt, afterRun envBadText freshState = some txt ∧
          envBadText.readErr = none ∧ envBadText.parse txt = none) :=
  c7_parse_failure_kind_distinct Nat envBadText "2 + 2" freshState
    ⟨by decide, by decide, by decide, by decide⟩

/-- C8: contract of the synthesized wrapper program. When file creation and
the write succeed, it evaluates the expression, converts the value with the
canonical to-string operation, writes that text verbatim to the fixed
`output` file and exits successfully; an I/O failure while creating or
writing the output file is reported through the process exit status; and a
fatal failure of the expression's own evaluation becomes an abnormal
process termination. -/
theorem c8_wrapper_contract (T : Type) (ts : T → String)
    (createOk writeOk : Bool) (leftover : String) (file : Option String) :
    (∀ v : T, createOk = true → writeOk = true →
      wrapperRun ts createOk writeOk leftover (ExprOutcome.val v) file =
        (ProcExit.success, some (ts v))) ∧
    (createOk = true →
      wrapperRun ts createOk writeOk leftover ExprOutcome.fatal file =
        (ProcExit.abnormal, some "")) ∧
    (∀ outcome : ExprOutcome T, createOk = false →
      (wrapperRun ts createOk writeOk leftover outcome file).1 =
        ProcExit.ioFailure) ∧
    (∀ v : T, createOk = true → writeOk = false →
      (wrapperRun ts createOk writeOk leftover (ExprOutcome.val v) file).1 =
        ProcExit.ioFailure) := by
  refine ⟨?_, ?_, ?_, ?_⟩ <;> intros <;> subst_vars <;> simp [wrapperRun]

/-- C9: the `eval` signature consumes the sandbox — `eval` takes `self` by
value and returns only the typed result, never the sandbox — so in every
sequence of public API calls a single sandbox lineage admits, at most one
call is an `eval` and no call of any kind follows an `eval` (an `eval`
can only occur as the final call), whether it succeeded or failed. -/
theorem c9_eval_consumes_sandbox (s : Session) :
    s.calls.countP ApiCall.isEval ≤ 1 ∧
    ∀ c ∈ s.calls.dropLast, c.isEval = false := by
  induction s with
  | drop => simp [Session.calls]
  | deps ds rest ih =>
    refine ⟨?_, ?_⟩
    · simpa [Session.calls, List.countP_cons, ApiCall.isEval] using ih.1
    · intro c hc
      cases hrest : rest.calls with
      | nil =>
        rw [show (Session.deps ds rest).calls = ApiCall.deps ds :: rest.calls from rfl,
          hrest] at hc
        simp at hc
      | cons a l =>
        rw [show (Session.deps ds rest).calls = ApiCall.deps ds :: rest.calls from rfl,
          hrest] at hc
        rcases List.mem_cons.mp (by simpa [List.dropLast] using hc) with h | h
        · subst h; rfl
        · exact ih.2 c (hrest ▸ h)
  | eval e => simp [Session.calls, ApiCall.isEval]

/-- C10: when the output file is read successfully but its text fails to
parse, `eval` returns the parse error before the deletion step, leaving the
output file on disk with that text (and the wrapper in src/main.rs); and in
any eval that got past the build step, the output file ends up absent only
if it was never produced or its text parsed successfully (and removal then
succeeded): deletion happens only after a successful parse. -/
theorem c10_output_left_on_parse_failure (T : Type) (env : EvalEnv T)
    (expr : String) (st : FsState) (txt : String)
    (hw : env.writeMain = none) (hs : ∃ s, env.runSpawn = .exited s)
    (ho : afterRun env st = some txt) (hre : env.readErr = none)
    (hp : env.parse txt = none) :
    evalRun env expr st =
      (.error .other, ⟨st.manifest, some (wrapperText expr), some txt⟩) ∧
    ∀ (env' : EvalEnv T) (st' : FsState),
      env'.writeMain = none → (∃ s, env'.runSpawn = .exited s) →
      (evalRun env' expr st').2.output = none →
      afterRun env' st' = none ∨
        ∃ t v, afterRun env' st' = some t ∧ env'.readErr = none ∧
          env'.parse t = some v ∧ env'.removeErr = none := by
  obtain ⟨s, hs⟩ := hs
  constructor
  · obtain ⟨m, a, o⟩ := st
    simp only [afterRun] at ho
    simp [evalRun, afterRun, hw, hs, ho, hre, hp]
  · intro env' st' hw' hs' hnone
    obtain ⟨s', hs'⟩ := hs'
    cases ho' : afterRun env' st' with
    | none => exact Or.inl rfl
    | some t =>
      right
      cases hre' : env'.readErr with
      | some k => simp [evalRun, hw', hs', ho', hre'] at hnone
      | none =>
        cases hp' : env'.parse t with
        | none => simp [evalRun, hw', hs', ho', hre', hp'] at hnone
        | some v =>
          cases hrm' : env'.removeErr with
          | some k => simp [evalRun, hw', hs', ho', hre', hp', hrm'] at hnone
          | none => exact ⟨t, v, rfl, rfl, hp', rfl⟩

/-- Witness for C10: unparsable output text is left on disk together with
the parse error, and the deletion-only-after-parse property holds at this
concrete input. -/
theorem c10_witness :
    evalRun envBadText "2 + 2" freshState =
      (.error .other,
        ⟨freshState.manifest, some (wrapperText "2 + 2"), some "not a number"⟩) ∧
    ∀ (env' : EvalEnv Nat) (st' : FsState),
      env'.writeMain = none → (∃ s, env'.runSpawn = .exited s) →
      (evalRun env' "2 + 2" st').2.output = none →
      afterRun env' st' = none ∨
        ∃ t v, afterRun env' st' = some t ∧ env'.readErr = none ∧
          env'.parse t = some v ∧ env'.removeErr = none :=
  c10_output_left_on_parse_failure Nat envBadText "2 + 2" freshState "not a number"
    rfl ⟨true, rfl⟩ rfl rfl (by decide)

end Antlion
